import Mathlib

/-!
Verification development for the TelegramMessagePush repository.

The embedding models the two source modules:

* `telegram.py` — the `TelegramHelper` class, whose four send wrappers build an
  inline-keyboard markup from a button list and issue one bot-API call each.
  The remote call itself (the `telebot` library) is external; each wrapper is
  modelled as the pure construction of the outgoing call record.
* `main.py` — config load/save, token validation, button collection from the
  six UI rows, the single attachment slot (`file_path`/`file_type`), and the
  `send_message` dispatcher.

Python strings are embedded as `List Char`; Python truthiness of a string is
non-emptiness, and `str.strip()` is `pyStrip` (whitespace removal from both
ends; the ASCII whitespace characters suffice for every property proved here).
External effects are explicit parameters: the file-picker result is the
`dialogPath` argument, success of `telebot.TeleBot(token)` construction and of
the network call are the `helperOk`/`sendOk` flags, and the on-disk config
file is a `FileState` value.
-/

abbrev Str := List Char

/-- Whitespace test used by the embedding of Python `str.strip()`. -/
def pyIsSpace (c : Char) : Bool :=
  c == ' ' || c == '\t' || c == '\n' || c == '\r' || c == Char.ofNat 11 || c == Char.ofNat 12

/-- Embedding of Python `str.strip()`: drop whitespace from both ends. -/
def pyStrip (s : Str) : Str :=
  ((s.dropWhile pyIsSpace).reverse.dropWhile pyIsSpace).reverse

/-- Python truthiness of a string: non-empty. -/
def pyTruthy (s : Str) : Bool := !s.isEmpty

/-- Python truthiness of an optional string (`None` and `""` are falsy). -/
def pyTruthyOptStr : Option Str → Bool
  | none => false
  | some s => !s.isEmpty

/-- One custom link button, the dict `{"text": ..., "url": ...}` of `main.py`. -/
structure Button where
  text : Str
  url : Str
  deriving DecidableEq

/-- Outgoing `send_message` call record (telegram.py line 37): chat id, text,
parse mode and the optional inline keyboard. -/
structure TgTextCall where
  chat_id : Str
  text : Str
  parse_mode : Str
  reply_markup : Option (List Button)
  deriving DecidableEq

/-- Outgoing media call record (telegram.py lines 55, 73, 91): chat id, path of
the file whose contents are uploaded, optional caption, optional keyboard. -/
structure TgMediaCall where
  chat_id : Str
  file_path : Str
  caption : Option Str
  reply_markup : Option (List Button)
  deriving DecidableEq

/-- TelegramHelper.send_message (telegram.py lines 22-37).  The markup is
`None` when the button list is falsy, otherwise the `InlineKeyboardMarkup`
accumulated by the loop, which adds exactly the buttons whose `text` and
`url` are both truthy.  `parse_mode` keeps its default `"Markdown"`, which is
what `main.py` passes. -/
def TelegramHelper.send_message (chat_id text : Str) (buttons : List Button) : TgTextCall :=
  let markup : Option (List Button) :=
    if buttons.isEmpty then none
    else some (buttons.foldl
      (fun acc b => if pyTruthy b.text && pyTruthy b.url then acc ++ [b] else acc) [])
  { chat_id := chat_id, text := text, parse_mode := ("Markdown".data), reply_markup := markup }

/-- TelegramHelper.send_photo (telegram.py lines 39-55), with the same inline
markup-building loop repeated verbatim in the source. -/
def TelegramHelper.send_photo (chat_id photo_path : Str) (caption : Option Str)
    (buttons : List Button) : TgMediaCall :=
  let markup : Option (List Button) :=
    if buttons.isEmpty then none
    else some (buttons.foldl
      (fun acc b => if pyTruthy b.text && pyTruthy b.url then acc ++ [b] else acc) [])
  { chat_id := chat_id, file_path := photo_path, caption := caption, reply_markup := markup }

/-- TelegramHelper.send_video (telegram.py lines 57-73). -/
def TelegramHelper.send_video (chat_id video_path : Str) (caption : Option Str)
    (buttons : List Button) : TgMediaCall :=
  let markup : Option (List Button) :=
    if buttons.isEmpty then none
    else some (buttons.foldl
      (fun acc b => if pyTruthy b.text && pyTruthy b.url then acc ++ [b] else acc) [])
  { chat_id := chat_id, file_path := video_path, caption := caption, reply_markup := markup }

/-- TelegramHelper.send_document (telegram.py lines 75-91). -/
def TelegramHelper.send_document (chat_id file_path : Str) (caption : Option Str)
    (buttons : List Button) : TgMediaCall :=
  let markup : Option (List Button) :=
    if buttons.isEmpty then none
    else some (buttons.foldl
      (fun acc b => if pyTruthy b.text && pyTruthy b.url then acc ++ [b] else acc) [])
  { chat_id := chat_id, file_path := file_path, caption := caption, reply_markup := markup }

/-- The string "image", the file-type tag passed by the image picker button
(main.py line 221). -/
def imageStr : Str := "image".data

/-- The string "video" (main.py line 225). -/
def videoStr : Str := "video".data

/-- The string "file", the generic-file tag (main.py line 229). -/
def fileStr : Str := "file".data

/-- The attachment slot of the `TelegramSender` window: the pair of instance
fields `self.file_path` / `self.file_type` (main.py lines 51-52). -/
structure FileSlot where
  file_path : Option Str
  file_type : Option Str
  deriving DecidableEq

/-- Initial attachment slot set up by `TelegramSender.__init__`
(main.py lines 51-52): both fields are `None`. -/
def TelegramSender.initSlot : FileSlot := { file_path := none, file_type := none }

/-- TelegramSender.clear_file (main.py lines 321-329), restricted to its state
effect: both attachment fields are reset to `None` (the label text and the
send-button refresh are pure UI). -/
def TelegramSender.clear_file (_st : FileSlot) : FileSlot :=
  { file_path := none, file_type := none }

/-- TelegramSender.choose_file (main.py lines 301-319).  `dialogPath` is the
path returned by the file dialog (the empty string when the user cancels):
a truthy path sets both fields, otherwise `clear_file` runs. -/
def TelegramSender.choose_file (st : FileSlot) (filetype : Str) (dialogPath : Str) : FileSlot :=
  if pyTruthy dialogPath then { file_path := some dialogPath, file_type := some filetype }
  else TelegramSender.clear_file st

/-- TelegramSender.get_buttons (main.py lines 331-342): walk the six
(text, url) UI rows in order, strip both fields, and append a button exactly
when both stripped fields are truthy. -/
def TelegramSender.get_buttons (rows : List (Str × Str)) : List Button :=
  rows.foldl
    (fun acc p =>
      if pyTruthy (pyStrip p.1) && pyTruthy (pyStrip p.2)
      then acc ++ [{ text := pyStrip p.1, url := pyStrip p.2 }]
      else acc) []

/-- TelegramSender.is_token_valid (main.py line 352):
`":" in token and len(token) > 10`. -/
def TelegramSender.is_token_valid (token : Str) : Bool :=
  decide (':' ∈ token) && decide (10 < token.length)

/-- Local validation failures of `send_message` (main.py lines 374-382). -/
inductive RejectReason
  | invalidCredentialFormat
  | missingChatTarget
  | emptyPayload
  deriving DecidableEq

/-- The four outgoing bot-API call variants. -/
inductive ApiCall
  | sendPhoto (call : TgMediaCall)
  | sendVideo (call : TgMediaCall)
  | sendDocument (call : TgMediaCall)
  | sendText (call : TgTextCall)
  deriving DecidableEq

/-- Outcome of one `send_message` action.  `rejected` means a local validation
failure before any network action; `initFailed` models the
`TelegramHelper(token)` constructor raising (main.py lines 383-387);
`sendFailed` models the issued call raising (the except branch, lines
401-405); `sent` is the success path. -/
inductive SendOutcome
  | rejected (reason : RejectReason)
  | initFailed
  | sendFailed (call : ApiCall)
  | sent (call : ApiCall)
  deriving DecidableEq

/-- TelegramSender.send_message (main.py lines 365-405) as a function from the
entered fields, the attachment slot and the six button rows to the outcome and
the updated attachment slot.  `helperOk` and `sendOk` are the external
success flags for helper construction and for the issued call; `clear_file`
runs only after a successful attachment send (line 397). -/
def TelegramSender.send_message (helperOk sendOk : Bool) (tokenRaw chatidRaw msgRaw : Str)
    (st : FileSlot) (rows : List (Str × Str)) : SendOutcome × FileSlot :=
  let token := pyStrip tokenRaw
  let chat_id := pyStrip chatidRaw
  let msg := pyStrip msgRaw
  if !(TelegramSender.is_token_valid token) then
    (SendOutcome.rejected RejectReason.invalidCredentialFormat, st)
  else if !(pyTruthy chat_id) then
    (SendOutcome.rejected RejectReason.missingChatTarget, st)
  else if !(pyTruthy msg || pyTruthyOptStr st.file_path) then
    (SendOutcome.rejected RejectReason.emptyPayload, st)
  else if !helperOk then
    (SendOutcome.initFailed, st)
  else
    let buttons := TelegramSender.get_buttons rows
    if pyTruthyOptStr st.file_path then
      let path := st.file_path.getD []
      let call :=
        if st.file_type = some imageStr then
          ApiCall.sendPhoto (TelegramHelper.send_photo chat_id path (some msg) buttons)
        else if st.file_type = some videoStr then
          ApiCall.sendVideo (TelegramHelper.send_video chat_id path (some msg) buttons)
        else
          ApiCall.sendDocument (TelegramHelper.send_document chat_id path (some msg) buttons)
      if sendOk then (SendOutcome.sent call, TelegramSender.clear_file st)
      else (SendOutcome.sendFailed call, st)
    else
      let call := ApiCall.sendText (TelegramHelper.send_message chat_id msg buttons)
      if sendOk then (SendOutcome.sent call, st) else (SendOutcome.sendFailed call, st)

/-- Whether an outcome involved issuing (or attempting) a network call. -/
def networkAttempted : SendOutcome → Bool
  | SendOutcome.sent _ => true
  | SendOutcome.sendFailed _ => true
  | _ => false

/-- The single API call attempted by an outcome, when there is one. -/
def attemptedCall : SendOutcome → Option ApiCall
  | SendOutcome.sent c => some c
  | SendOutcome.sendFailed c => some c
  | _ => none

/-- The four call variants, without their payloads. -/
inductive CallVariant
  | photoV
  | videoV
  | documentV
  | textV
  deriving DecidableEq

/-- Variant classifier for an outgoing call. -/
def callVariant : ApiCall → CallVariant
  | ApiCall.sendPhoto _ => CallVariant.photoV
  | ApiCall.sendVideo _ => CallVariant.videoV
  | ApiCall.sendDocument _ => CallVariant.documentV
  | ApiCall.sendText _ => CallVariant.textV

/-- The button list carried by an outgoing call. -/
def markupOf : ApiCall → Option (List Button)
  | ApiCall.sendPhoto c => c.reply_markup
  | ApiCall.sendVideo c => c.reply_markup
  | ApiCall.sendDocument c => c.reply_markup
  | ApiCall.sendText c => c.reply_markup

/-- The persistent credential record stored in `config.json`: optional
`token` and `chat_id` fields (spec section 3; written by `save_token` and
`save_chatid` in main.py). -/
structure Config where
  token : Option Str
  chat_id : Option Str
  deriving DecidableEq

/-- State of the on-disk config file, abstracting the external filesystem and
JSON codec: the file is absent, unreadable/malformed, or holds the well-formed
JSON encoding of a record (the `json` library is an external collaborator, so
its encode/decode round trip is represented by the `stored` constructor). -/
inductive FileState
  | absent
  | corrupt
  | stored (data : Config)
  deriving DecidableEq

/-- load_config (main.py lines 20-29): any read or parse failure — absent or
corrupt file — lands in the `except` branch and yields the empty record;
a readable well-formed file yields the parsed record. -/
def load_config : FileState → Config
  | FileState.absent => { token := none, chat_id := none }
  | FileState.corrupt => { token := none, chat_id := none }
  | FileState.stored data => data

/-- save_config (main.py lines 31-38): rewrite the whole file with the JSON
dump of `data`, whatever the file held before. -/
def save_config (data : Config) (_fs : FileState) : FileState := FileState.stored data

/-- Mapping of one UI row to the button it would contribute: both fields
stripped. -/
def stripRow (p : Str × Str) : Button := { text := pyStrip p.1, url := pyStrip p.2 }

/-- Attachment-slot invariant of claim C10: path and kind are both `None` or
both set, and a set kind is one of the three picker tags. -/
def FileInv (st : FileSlot) : Prop :=
  (st.file_path = none ∧ st.file_type = none) ∨
  (∃ p t, st.file_path = some p ∧ st.file_type = some t ∧
    (t = imageStr ∨ t = videoStr ∨ t = fileStr))

/-- The call selected by the dispatch branch of `send_message` (main.py lines
390-399): with a file present the file type picks photo for "image", video
for "video" and document for anything else; with no file the text call. -/
def dispatchCall (chat_id msg : Str) (st : FileSlot) (buttons : List Button) : ApiCall :=
  if pyTruthyOptStr st.file_path then
    let path := st.file_path.getD []
    if st.file_type = some imageStr then
      ApiCall.sendPhoto (TelegramHelper.send_photo chat_id path (some msg) buttons)
    else if st.file_type = some videoStr then
      ApiCall.sendVideo (TelegramHelper.send_video chat_id path (some msg) buttons)
    else
      ApiCall.sendDocument (TelegramHelper.send_document chat_id path (some msg) buttons)
  else ApiCall.sendText (TelegramHelper.send_message chat_id msg buttons)

/-- Dropping while a predicate holds is idempotent. -/
theorem dropWhile_dropWhile {α : Type} (p : α → Bool) (l : List α) :
    (l.dropWhile p).dropWhile p = l.dropWhile p := by
  induction l with
  | nil => rfl
  | cons a t ih =>
    by_cases h : p a = true
    · simp [List.dropWhile_cons, h, ih]
    · simp [List.dropWhile_cons, h]

/-- The first element surviving `dropWhile` fails the predicate. -/
theorem head?_dropWhile {α : Type} (p : α → Bool) (l : List α) {a : α} {t : List α}
    (h : l.dropWhile p = a :: t) : p a = false := by
  induction l with
  | nil => simp at h
  | cons b l' ih =>
    rw [List.dropWhile_cons] at h
    by_cases hb : p b = true
    · rw [if_pos hb] at h
      exact ih h
    · rw [if_neg hb] at h
      injection h with h1 _
      rw [← h1]
      exact Bool.not_eq_true _ ▸ hb

/-- A list whose head fails the predicate is untouched by `dropWhile`. -/
theorem dropWhile_eq_self {α : Type} (p : α → Bool) (l : List α)
    (h : ∀ a, l.head? = some a → p a = false) : l.dropWhile p = l := by
  cases l with
  | nil => rfl
  | cons a t =>
    rw [List.dropWhile_cons, if_neg]
    rw [h a rfl]
    simp

/-- When `dropWhile` leaves a non-empty list, the last element is unchanged. -/
theorem getLast?_dropWhile {α : Type} (p : α → Bool) (l : List α)
    (h : l.dropWhile p ≠ []) : (l.dropWhile p).getLast? = l.getLast? := by
  induction l with
  | nil => simp at h
  | cons b t ih =>
    rw [List.dropWhile_cons] at h ⊢
    by_cases hb : p b = true
    · rw [if_pos hb] at h ⊢
      rw [ih h]
      have ht : t ≠ [] := by
        intro he
        rw [he] at h
        simp at h
      cases t with
      | nil => exact absurd rfl ht
      | cons c t' => rw [List.getLast?_cons_cons]
    · rw [if_neg hb]

/-- Stripping only removes characters: the result is a sublist. -/
theorem pyStrip_sublist (s : Str) : List.Sublist (pyStrip s) s := by
  have h1 := List.reverse_sublist.mpr
    (List.dropWhile_sublist (l := (s.dropWhile pyIsSpace).reverse) pyIsSpace)
  rw [List.reverse_reverse] at h1
  exact h1.trans (List.dropWhile_sublist pyIsSpace)

/-- Stripping never lengthens a string. -/
theorem pyStrip_length_le (s : Str) : (pyStrip s).length ≤ s.length :=
  (pyStrip_sublist s).length_le

/-- Characters of a stripped string come from the original. -/
theorem pyStrip_mem {c : Char} {s : Str} (h : c ∈ pyStrip s) : c ∈ s :=
  (pyStrip_sublist s).subset h

/-- Stripping is idempotent. -/
theorem pyStrip_idem (s : Str) : pyStrip (pyStrip s) = pyStrip s := by
  obtain ⟨C, hC⟩ : ∃ C, s.dropWhile pyIsSpace = C := ⟨_, rfl⟩
  obtain ⟨D, hD⟩ : ∃ D, C.reverse.dropWhile pyIsSpace = D := ⟨_, rfl⟩
  have hps : pyStrip s = D.reverse := by
    unfold pyStrip
    rw [hC, hD]
  have hDD : D.dropWhile pyIsSpace = D := by
    rw [← hD]
    exact dropWhile_dropWhile _ _
  have hDrev : D.reverse.dropWhile pyIsSpace = D.reverse := by
    apply dropWhile_eq_self
    intro a ha
    rw [List.head?_reverse] at ha
    have hDne : D ≠ [] := by
      intro he
      rw [he] at ha
      simp at ha
    have h1 : D.getLast? = C.reverse.getLast? := by
      rw [← hD]
      exact getLast?_dropWhile _ _ (hD ▸ hDne)
    rw [h1, List.getLast?_reverse] at ha
    cases hc : C with
    | nil =>
      rw [hc] at ha
      simp at ha
    | cons c0 ct =>
      rw [hc] at ha
      simp only [List.head?_cons, Option.some.injEq] at ha
      rw [← ha]
      exact head?_dropWhile pyIsSpace s (hC.trans hc)
  rw [hps]
  unfold pyStrip
  rw [hDrev, List.reverse_reverse, hDD]

/-- The accumulation loop of `get_buttons` is filtering of the stripped rows. -/
theorem get_buttons_eq_filter (rows : List (Str × Str)) :
    TelegramSender.get_buttons rows
      = (rows.map stripRow).filter (fun b => pyTruthy b.text && pyTruthy b.url) := by
  have key : ∀ (l : List (Str × Str)) (acc : List Button),
      l.foldl
        (fun acc p =>
          if pyTruthy (pyStrip p.1) && pyTruthy (pyStrip p.2)
          then acc ++ [{ text := pyStrip p.1, url := pyStrip p.2 }]
          else acc) acc
        = acc ++ (l.map stripRow).filter (fun b => pyTruthy b.text && pyTruthy b.url) := by
    intro l
    induction l with
    | nil =>
      intro acc
      simp
    | cons p t ih =>
      intro acc
      simp only [List.foldl_cons, List.map_cons, List.filter_cons]
      by_cases h : (pyTruthy (pyStrip p.1) && pyTruthy (pyStrip p.2)) = true
      · rw [if_pos h, ih]
        simp [stripRow, h]
      · rw [if_neg h, ih]
        simp [stripRow, h]
  unfold TelegramSender.get_buttons
  rw [key]
  simp

/-- The markup-building loop shared by the four wrappers is a filter. -/
theorem markup_foldl_eq_filter (btns acc : List Button) :
    btns.foldl (fun acc b => if pyTruthy b.text && pyTruthy b.url then acc ++ [b] else acc) acc
      = acc ++ btns.filter (fun b => pyTruthy b.text && pyTruthy b.url) := by
  induction btns generalizing acc with
  | nil => simp
  | cons b t ih =>
    simp only [List.foldl_cons, List.filter_cons]
    by_cases h : (pyTruthy b.text && pyTruthy b.url) = true
    · rw [if_pos h, if_pos h, ih]
      simp
    · rw [if_neg h, if_neg h, ih]

/-- Markup built by the text wrapper equals the both-fields-truthy filter. -/
theorem send_message_markup (chat_id text : Str) (btns : List Button) :
    (TelegramHelper.send_message chat_id text btns).reply_markup
      = if btns.isEmpty then none
        else some (btns.filter (fun b => pyTruthy b.text && pyTruthy b.url)) := by
  have h : (TelegramHelper.send_message chat_id text btns).reply_markup
      = if btns.isEmpty then none
        else some (btns.foldl
          (fun acc b => if pyTruthy b.text && pyTruthy b.url then acc ++ [b] else acc) []) := rfl
  rw [h, markup_foldl_eq_filter]
  simp

/-- Markup built by the photo wrapper equals the both-fields-truthy filter. -/
theorem send_photo_markup (chat_id path : Str) (caption : Option Str) (btns : List Button) :
    (TelegramHelper.send_photo chat_id path caption btns).reply_markup
      = if btns.isEmpty then none
        else some (btns.filter (fun b => pyTruthy b.text && pyTruthy b.url)) := by
  have h : (TelegramHelper.send_photo chat_id path caption btns).reply_markup
      = if btns.isEmpty then none
        else some (btns.foldl
          (fun acc b => if pyTruthy b.text && pyTruthy b.url then acc ++ [b] else acc) []) := rfl
  rw [h, markup_foldl_eq_filter]
  simp

/-- Markup built by the video wrapper equals the both-fields-truthy filter. -/
theorem send_video_markup (chat_id path : Str) (caption : Option Str) (btns : List Button) :
    (TelegramHelper.send_video chat_id path caption btns).reply_markup
      = if btns.isEmpty then none
        else some (btns.filter (fun b => pyTruthy b.text && pyTruthy b.url)) := by
  have h : (TelegramHelper.send_video chat_id path caption btns).reply_markup
      = if btns.isEmpty then none
        else some (btns.foldl
          (fun acc b => if pyTruthy b.text && pyTruthy b.url then acc ++ [b] else acc) []) := rfl
  rw [h, markup_foldl_eq_filter]
  simp

/-- Markup built by the document wrapper equals the both-fields-truthy filter. -/
theorem send_document_markup (chat_id path : Str) (caption : Option Str) (btns : List Button) :
    (TelegramHelper.send_document chat_id path caption btns).reply_markup
      = if btns.isEmpty then none
        else some (btns.filter (fun b => pyTruthy b.text && pyTruthy b.url)) := by
  have h : (TelegramHelper.send_document chat_id path caption btns).reply_markup
      = if btns.isEmpty then none
        else some (btns.foldl
          (fun acc b => if pyTruthy b.text && pyTruthy b.url then acc ++ [b] else acc) []) := rfl
  rw [h, markup_foldl_eq_filter]
  simp

/-- Buttons that survived `get_buttons` all pass the wrappers' truthiness
re-check, so re-filtering them changes nothing. -/
theorem filter_get_buttons (rows : List (Str × Str)) :
    (TelegramSender.get_buttons rows).filter (fun b => pyTruthy b.text && pyTruthy b.url)
      = TelegramSender.get_buttons rows := by
  rw [get_buttons_eq_filter]
  exact List.filter_eq_self.mpr (fun a ha => (List.mem_filter.mp ha).2)

/-- Shape of a validated send: one call is attempted (sent when the network
call succeeds, failed otherwise) and the slot is cleared exactly after a
successful attachment send. -/
theorem send_message_shape (sendOk : Bool) (token chatid msg : Str) (st : FileSlot)
    (rows : List (Str × Str))
    (htok : TelegramSender.is_token_valid (pyStrip token) = true)
    (hchat : pyTruthy (pyStrip chatid) = true)
    (hpay : (pyTruthy (pyStrip msg) || pyTruthyOptStr st.file_path) = true) :
    TelegramSender.send_message true sendOk token chatid msg st rows
      = ((if sendOk then
            SendOutcome.sent (dispatchCall (pyStrip chatid) (pyStrip msg) st
              (TelegramSender.get_buttons rows))
          else
            SendOutcome.sendFailed (dispatchCall (pyStrip chatid) (pyStrip msg) st
              (TelegramSender.get_buttons rows))),
         (if sendOk && pyTruthyOptStr st.file_path then TelegramSender.clear_file st
          else st)) := by
  unfold TelegramSender.send_message dispatchCall
  by_cases hfp : pyTruthyOptStr st.file_path = true
  · simp only [htok, hchat, hpay, hfp]
    cases sendOk <;> simp
  · have hfp' : pyTruthyOptStr st.file_path = false := by
      cases h : pyTruthyOptStr st.file_path
      · rfl
      · exact absurd h hfp
    have hmsg : pyTruthy (pyStrip msg) = true := by
      rw [hfp', Bool.or_false] at hpay
      exact hpay
    simp only [htok, hchat, hpay, hfp', hmsg]
    cases sendOk <;> simp

/-- The attachment slot after any `send_message` action is either untouched or
reset by `clear_file`. -/
theorem send_message_slot_cases (helperOk sendOk : Bool) (token chatid msg : Str)
    (st : FileSlot) (rows : List (Str × Str)) :
    (TelegramSender.send_message helperOk sendOk token chatid msg st rows).2 = st ∨
    (TelegramSender.send_message helperOk sendOk token chatid msg st rows).2
      = TelegramSender.clear_file st := by
  unfold TelegramSender.send_message
  cases h1 : TelegramSender.is_token_valid (pyStrip token) <;>
    cases h2 : pyTruthy (pyStrip chatid) <;>
      cases h3 : pyTruthy (pyStrip msg) <;>
        cases h4 : pyTruthyOptStr st.file_path <;>
          cases helperOk <;>
            cases sendOk <;>
              simp [h1, h2, h3, h4]

/-- C7: `load_config` never fails: a missing file and unreadable or malformed
content both yield the empty record, and a readable well-formed file yields
the parsed record. -/
theorem load_config_fail_soft :
    load_config FileState.absent = { token := none, chat_id := none } ∧
    load_config FileState.corrupt = { token := none, chat_id := none } ∧
    ∀ data : Config, load_config (FileState.stored data) = data := by
  refine ⟨rfl, rfl, ?_⟩
  intro data
  rfl

/-- C8: with the config file absent `load_config` returns the empty record,
and after `save_config data` a subsequent `load_config` returns exactly
`data`, whatever the file held before (save overwrites the full contents);
in particular the spec's concrete token/chat-id scenario holds. -/
theorem save_load_round_trip :
    load_config FileState.absent = { token := none, chat_id := none } ∧
    (∀ (data : Config) (fs : FileState), load_config (save_config data fs) = data) ∧
    load_config (save_config { token := some ("t".data), chat_id := some ("c".data) }
        FileState.absent)
      = { token := some ("t".data), chat_id := some ("c".data) } := by
  refine ⟨rfl, ?_, rfl⟩
  intro data fs
  rfl

/-- C2: a credential that lacks the separator character or whose length does
not exceed 10 is rejected with `InvalidCredentialFormat`, no network call is
attempted, and the attachment slot is untouched. -/
theorem invalid_credential_rejected (helperOk sendOk : Bool) (token chatid msg : Str)
    (st : FileSlot) (rows : List (Str × Str))
    (hbad : (':' ∉ token) ∨ token.length ≤ 10) :
    (TelegramSender.send_message helperOk sendOk token chatid msg st rows).1
        = SendOutcome.rejected RejectReason.invalidCredentialFormat ∧
    networkAttempted
        (TelegramSender.send_message helperOk sendOk token chatid msg st rows).1 = false ∧
    (TelegramSender.send_message helperOk sendOk token chatid msg st rows).2 = st := by
  have hval : TelegramSender.is_token_valid (pyStrip token) = false := by
    unfold TelegramSender.is_token_valid
    rcases hbad with h | h
    · have hm : ':' ∉ pyStrip token := fun hmem => h (pyStrip_mem hmem)
      simp [hm]
    · have hl : ¬(10 < (pyStrip token).length) := by
        have := pyStrip_length_le token
        omega
      simp [hl]
  unfold TelegramSender.send_message
  simp [hval, networkAttempted]

/-- C2 witness: the concrete credential "short" (no separator, length 5) is
rejected locally with no call attempted. -/
theorem invalid_credential_rejected_witness :
    (TelegramSender.send_message true true ("short".data) ("999".data) ("hello".data)
        TelegramSender.initSlot []).1
      = SendOutcome.rejected RejectReason.invalidCredentialFormat ∧
    networkAttempted (TelegramSender.send_message true true ("short".data) ("999".data)
        ("hello".data) TelegramSender.initSlot []).1 = false ∧
    (TelegramSender.send_message true true ("short".data) ("999".data) ("hello".data)
        TelegramSender.initSlot []).2 = TelegramSender.initSlot :=
  invalid_credential_rejected true true _ _ _ _ _ (by decide)

/-- C3 counterexample: the request with credential "bad", empty chat
identifier, text "hello" and no attachment has an empty trimmed chat
identifier, yet is rejected with `InvalidCredentialFormat`, not
`MissingChatTarget`: the token check runs first, so the claim as stated
fails on this input. -/
theorem empty_chat_reason_counterexample :
    pyStrip ("".data) = [] ∧
    (TelegramSender.send_message true true ("bad".data) ("".data) ("hello".data)
        TelegramSender.initSlot []).1
      = SendOutcome.rejected RejectReason.invalidCredentialFormat ∧
    RejectReason.invalidCredentialFormat ≠ RejectReason.missingChatTarget := by
  decide

/-- C3 (amended): for every request whose credential passes the format check,
an empty trimmed chat identifier is rejected with `MissingChatTarget`,
regardless of text, attachment and button content, with no network call and
the attachment slot untouched. -/
theorem empty_chat_rejected (helperOk sendOk : Bool) (token chatid msg : Str)
    (st : FileSlot) (rows : List (Str × Str))
    (htok : TelegramSender.is_token_valid (pyStrip token) = true)
    (hchat : pyStrip chatid = []) :
    (TelegramSender.send_message helperOk sendOk token chatid msg st rows).1
        = SendOutcome.rejected RejectReason.missingChatTarget ∧
    networkAttempted
        (TelegramSender.send_message helperOk sendOk token chatid msg st rows).1 = false ∧
    (TelegramSender.send_message helperOk sendOk token chatid msg st rows).2 = st := by
  have hnil : pyTruthy ([] : Str) = false := rfl
  unfold TelegramSender.send_message
  simp [htok, hchat, hnil, networkAttempted]

/-- C3 witness: a valid-format credential with an empty chat identifier is
rejected with `MissingChatTarget` even with text and an attachment present. -/
theorem empty_chat_rejected_witness :
    (TelegramSender.send_message true true ("123456:ABC-DEF".data) ("".data) ("hello".data)
        { file_path := some ("pic.png".data), file_type := some imageStr } []).1
      = SendOutcome.rejected RejectReason.missingChatTarget ∧
    networkAttempted (TelegramSender.send_message true true ("123456:ABC-DEF".data) ("".data)
        ("hello".data) { file_path := some ("pic.png".data), file_type := some imageStr } []).1
      = false ∧
    (TelegramSender.send_message true true ("123456:ABC-DEF".data) ("".data) ("hello".data)
        { file_path := some ("pic.png".data), file_type := some imageStr } []).2
      = { file_path := some ("pic.png".data), file_type := some imageStr } :=
  empty_chat_rejected true true _ _ _ _ _ (by decide) (by decide)

/-- C4 counterexample: the request with credential "bad", chat identifier
"999", empty text and no attachment is rejected with
`InvalidCredentialFormat`, not `EmptyPayload`: the claim as stated fails on
this input because the token check runs first. -/
theorem empty_payload_reason_counterexample :
    pyStrip ("".data) = [] ∧
    TelegramSender.initSlot.file_path = none ∧
    (TelegramSender.send_message true true ("bad".data) ("999".data) ("".data)
        TelegramSender.initSlot []).1
      = SendOutcome.rejected RejectReason.invalidCredentialFormat ∧
    RejectReason.invalidCredentialFormat ≠ RejectReason.emptyPayload := by
  decide

/-- C4 (amended): for every request whose credential passes the format check
and whose trimmed chat identifier is non-empty, empty trimmed text together
with no selected attachment is rejected with `EmptyPayload` and no network
call is attempted. -/
theorem empty_payload_rejected (helperOk sendOk : Bool) (token chatid msg : Str)
    (st : FileSlot) (rows : List (Str × Str))
    (htok : TelegramSender.is_token_valid (pyStrip token) = true)
    (hchat : pyTruthy (pyStrip chatid) = true)
    (hmsg : pyStrip msg = [])
    (hfile : st.file_path = none) :
    (TelegramSender.send_message helperOk sendOk token chatid msg st rows).1
        = SendOutcome.rejected RejectReason.emptyPayload ∧
    networkAttempted
        (TelegramSender.send_message helperOk sendOk token chatid msg st rows).1 = false ∧
    (TelegramSender.send_message helperOk sendOk token chatid msg st rows).2 = st := by
  have hnil : pyTruthy ([] : Str) = false := rfl
  have hnone : pyTruthyOptStr none = false := rfl
  unfold TelegramSender.send_message
  simp [htok, hchat, hmsg, hfile, hnil, hnone, networkAttempted]

/-- C4 witness: a valid credential and chat id with empty text and no
attachment is rejected with `EmptyPayload` and no call attempted. -/
theorem empty_payload_rejected_witness :
    (TelegramSender.send_message true true ("123456:ABC-DEF".data) ("999".data) ("  ".data)
        TelegramSender.initSlot []).1
      = SendOutcome.rejected RejectReason.emptyPayload ∧
    networkAttempted (TelegramSender.send_message true true ("123456:ABC-DEF".data)
        ("999".data) ("  ".data) TelegramSender.initSlot []).1 = false ∧
    (TelegramSender.send_message true true ("123456:ABC-DEF".data) ("999".data) ("  ".data)
        TelegramSender.initSlot []).2 = TelegramSender.initSlot :=
  empty_payload_rejected true true _ _ _ _ _ (by decide) (by decide) (by decide) (by decide)

/-- C5: `get_buttons` keeps exactly the stripped rows with both fields
non-empty, in order; every dispatched button has non-empty text and url, so a
partial entry never appears; re-filtering the already-filtered list yields
the same list; and each of the four call wrappers re-applies the same
both-fields-non-empty filter when building its markup. -/
theorem button_filtering_properties :
    (∀ rows, TelegramSender.get_buttons rows
        = (rows.map stripRow).filter (fun b => pyTruthy b.text && pyTruthy b.url)) ∧
    (∀ rows, (TelegramSender.get_buttons rows).all
        (fun b => pyTruthy b.text && pyTruthy b.url) = true) ∧
    (∀ rows, TelegramSender.get_buttons
        ((TelegramSender.get_buttons rows).map (fun b => (b.text, b.url)))
        = TelegramSender.get_buttons rows) ∧
    (∀ chat_id text btns, (TelegramHelper.send_message chat_id text btns).reply_markup
        = if btns.isEmpty then none
          else some (btns.filter (fun b => pyTruthy b.text && pyTruthy b.url))) ∧
    (∀ chat_id path caption btns,
        (TelegramHelper.send_photo chat_id path caption btns).reply_markup
        = if btns.isEmpty then none
          else some (btns.filter (fun b => pyTruthy b.text && pyTruthy b.url))) ∧
    (∀ chat_id path caption btns,
        (TelegramHelper.send_video chat_id path caption btns).reply_markup
        = if btns.isEmpty then none
          else some (btns.filter (fun b => pyTruthy b.text && pyTruthy b.url))) ∧
    (∀ chat_id path caption btns,
        (TelegramHelper.send_document chat_id path caption btns).reply_markup
        = if btns.isEmpty then none
          else some (btns.filter (fun b => pyTruthy b.text && pyTruthy b.url))) := by
  refine ⟨get_buttons_eq_filter, ?_, ?_, send_message_markup, send_photo_markup,
    send_video_markup, send_document_markup⟩
  · intro rows
    rw [get_buttons_eq_filter, List.all_eq_true]
    intro b hb
    exact (List.mem_filter.mp hb).2
  · intro rows
    rw [get_buttons_eq_filter, get_buttons_eq_filter, List.map_map]
    have hcongr : ∀ b ∈ (rows.map stripRow).filter
        (fun b => pyTruthy b.text && pyTruthy b.url),
        (stripRow ∘ fun b : Button => (b.text, b.url)) b = id b := by
      intro b hb
      have hbm : b ∈ rows.map stripRow := (List.mem_filter.mp hb).1
      obtain ⟨p, _, hp⟩ := List.mem_map.mp hbm
      have h1 : pyStrip b.text = b.text := by
        rw [← hp]
        simp [stripRow, pyStrip_idem]
      have h2 : pyStrip b.url = b.url := by
        rw [← hp]
        simp [stripRow, pyStrip_idem]
      simp [stripRow, Function.comp, h1, h2]
    rw [List.map_congr_left hcongr, List.map_id]
    exact List.filter_eq_self.mpr (fun a ha => (List.mem_filter.mp ha).2)

/-- C10: the attachment-slot invariant — path and kind both none or both set
with the kind one of the three picker tags — holds initially and is preserved
by choosing a file (with any of the three tags the UI passes), by clearing,
and by any `send_message` action including the post-send reset. -/
theorem attachment_slot_invariant :
    FileInv TelegramSender.initSlot ∧
    (∀ st filetype dialogPath,
        (filetype = imageStr ∨ filetype = videoStr ∨ filetype = fileStr) →
        FileInv (TelegramSender.choose_file st filetype dialogPath)) ∧
    (∀ st, FileInv (TelegramSender.clear_file st)) ∧
    (∀ helperOk sendOk token chatid msg st rows, FileInv st →
        FileInv (TelegramSender.send_message helperOk sendOk token chatid msg st rows).2) := by
  refine ⟨Or.inl ⟨rfl, rfl⟩, ?_, ?_, ?_⟩
  · intro st filetype dialogPath hft
    unfold TelegramSender.choose_file
    by_cases h : pyTruthy dialogPath = true
    · rw [if_pos h]
      exact Or.inr ⟨dialogPath, filetype, rfl, rfl, hft⟩
    · rw [if_neg h]
      exact Or.inl ⟨rfl, rfl⟩
  · intro st
    exact Or.inl ⟨rfl, rfl⟩
  · intro helperOk sendOk token chatid msg st rows hinv
    rcases send_message_slot_cases helperOk sendOk token chatid msg st rows with h | h
    · rw [h]
      exact hinv
    · rw [h]
      exact Or.inl ⟨rfl, rfl⟩

/-- C10 witness: choosing an image file from the initial slot keeps the
invariant. -/
theorem attachment_slot_invariant_witness :
    FileInv (TelegramSender.choose_file TelegramSender.initSlot imageStr ("pic.png".data)) :=
  attachment_slot_invariant.2.1 TelegramSender.initSlot imageStr ("pic.png".data) (Or.inl rfl)

/-- Variant of the dispatched call, characterised by the slot contents. -/
theorem callVariant_dispatchCall (chat_id msg : Str) (st : FileSlot) (buttons : List Button) :
    (callVariant (dispatchCall chat_id msg st buttons) = CallVariant.photoV
        ↔ pyTruthyOptStr st.file_path = true ∧ st.file_type = some imageStr) ∧
    (callVariant (dispatchCall chat_id msg st buttons) = CallVariant.videoV
        ↔ pyTruthyOptStr st.file_path = true ∧ st.file_type = some videoStr) ∧
    (callVariant (dispatchCall chat_id msg st buttons) = CallVariant.documentV
        ↔ pyTruthyOptStr st.file_path = true ∧ st.file_type ≠ some imageStr ∧
            st.file_type ≠ some videoStr) ∧
    (callVariant (dispatchCall chat_id msg st buttons) = CallVariant.textV
        ↔ pyTruthyOptStr st.file_path = false) := by
  have hiv : imageStr ≠ videoStr := by decide
  have hvi : videoStr ≠ imageStr := by decide
  unfold dispatchCall
  by_cases hfp : pyTruthyOptStr st.file_path = true
  · rw [if_pos hfp]
    by_cases himg : st.file_type = some imageStr
    · rw [if_pos himg]
      simp [callVariant, hfp, himg, hiv]
    · rw [if_neg himg]
      by_cases hvid : st.file_type = some videoStr
      · rw [if_pos hvid]
        simp [callVariant, hfp, himg, hvid, hvi]
      · rw [if_neg hvid]
        simp [callVariant, hfp, himg, hvid]
  · have hfp' : pyTruthyOptStr st.file_path = false := by
      cases h : pyTruthyOptStr st.file_path
      · rfl
      · exact absurd h hfp
    rw [if_neg hfp]
    simp [callVariant, hfp']

/-- C1: for every valid send request (credential format accepted, chat
identifier non-empty, payload present, helper constructed) exactly one call
is attempted, and its variant is the photo call iff the attachment kind is
image, the video call iff video, the document call iff an attachment of any
other kind is held, and the text call iff no attachment is held. -/
theorem routing_total_and_exclusive (sendOk : Bool) (token chatid msg : Str)
    (st : FileSlot) (rows : List (Str × Str))
    (htok : TelegramSender.is_token_valid (pyStrip token) = true)
    (hchat : pyTruthy (pyStrip chatid) = true)
    (hpay : (pyTruthy (pyStrip msg) || pyTruthyOptStr st.file_path) = true) :
    ∃ c, attemptedCall
          (TelegramSender.send_message true sendOk token chatid msg st rows).1 = some c ∧
      (callVariant c = CallVariant.photoV
        ↔ pyTruthyOptStr st.file_path = true ∧ st.file_type = some imageStr) ∧
      (callVariant c = CallVariant.videoV
        ↔ pyTruthyOptStr st.file_path = true ∧ st.file_type = some videoStr) ∧
      (callVariant c = CallVariant.documentV
        ↔ pyTruthyOptStr st.file_path = true ∧ st.file_type ≠ some imageStr ∧
            st.file_type ≠ some videoStr) ∧
      (callVariant c = CallVariant.textV ↔ pyTruthyOptStr st.file_path = false) := by
  rw [send_message_shape sendOk token chatid msg st rows htok hchat hpay]
  obtain ⟨h1, h2, h3, h4⟩ := callVariant_dispatchCall (pyStrip chatid) (pyStrip msg) st
    (TelegramSender.get_buttons rows)
  refine ⟨dispatchCall (pyStrip chatid) (pyStrip msg) st (TelegramSender.get_buttons rows),
    ?_, h1, h2, h3, h4⟩
  cases sendOk <;> rfl

/-- C1 witness: the concrete valid text-only request attempts exactly one
call. -/
theorem routing_total_and_exclusive_witness :
    (attemptedCall (TelegramSender.send_message true true ("123456:ABC-DEF".data)
        ("999".data) ("hello".data) TelegramSender.initSlot []).1).isSome = true := by
  obtain ⟨c, hc, _⟩ := routing_total_and_exclusive true ("123456:ABC-DEF".data) ("999".data)
    ("hello".data) TelegramSender.initSlot [] (by decide) (by decide) (by decide)
  rw [hc]
  rfl

/-- C6: after a successful attachment send both slot fields are cleared to
none, and a subsequent send with non-empty text and no newly chosen file
routes to the text call. -/
theorem attachment_cleared_after_success (token chatid msg : Str) (st : FileSlot)
    (rows : List (Str × Str))
    (htok : TelegramSender.is_token_valid (pyStrip token) = true)
    (hchat : pyTruthy (pyStrip chatid) = true)
    (hfile : pyTruthyOptStr st.file_path = true) :
    (∃ c, (TelegramSender.send_message true true token chatid msg st rows).1
        = SendOutcome.sent c) ∧
    (TelegramSender.send_message true true token chatid msg st rows).2.file_path = none ∧
    (TelegramSender.send_message true true token chatid msg st rows).2.file_type = none ∧
    (∀ msg2 rows2, pyTruthy (pyStrip msg2) = true →
      ∃ tc, (TelegramSender.send_message true true token chatid msg2
              (TelegramSender.send_message true true token chatid msg st rows).2 rows2).1
            = SendOutcome.sent (ApiCall.sendText tc)) := by
  have hpay : (pyTruthy (pyStrip msg) || pyTruthyOptStr st.file_path) = true := by
    rw [hfile, Bool.or_true]
  have hshape := send_message_shape true token chatid msg st rows htok hchat hpay
  have hfst : (TelegramSender.send_message true true token chatid msg st rows).1
      = SendOutcome.sent (dispatchCall (pyStrip chatid) (pyStrip msg) st
          (TelegramSender.get_buttons rows)) := by
    rw [hshape]
    simp
  have hsnd : (TelegramSender.send_message true true token chatid msg st rows).2
      = TelegramSender.clear_file st := by
    rw [hshape]
    simp [hfile]
  refine ⟨⟨_, hfst⟩, ?_, ?_, ?_⟩
  · rw [hsnd]
    rfl
  · rw [hsnd]
    rfl
  · intro msg2 rows2 hmsg2
    rw [hsnd]
    have hpay2 : (pyTruthy (pyStrip msg2)
        || pyTruthyOptStr (TelegramSender.clear_file st).file_path) = true := by
      rw [hmsg2]
      rfl
    rw [send_message_shape true token chatid msg2 (TelegramSender.clear_file st) rows2
      htok hchat hpay2]
    exact ⟨TelegramHelper.send_message (pyStrip chatid) (pyStrip msg2)
      (TelegramSender.get_buttons rows2), rfl⟩

/-- C6 witness: a successful photo send from the concrete attachment slot
clears it, and the follow-up text-only send issues a text call. -/
theorem attachment_cleared_after_success_witness :
    (∃ c, (TelegramSender.send_message true true ("123456:ABC-DEF".data) ("999".data)
        ("hi".data) { file_path := some ("pic.png".data), file_type := some imageStr } []).1
        = SendOutcome.sent c) ∧
    (TelegramSender.send_message true true ("123456:ABC-DEF".data) ("999".data) ("hi".data)
        { file_path := some ("pic.png".data), file_type := some imageStr } []).2.file_path
      = none ∧
    (TelegramSender.send_message true true ("123456:ABC-DEF".data) ("999".data) ("hi".data)
        { file_path := some ("pic.png".data), file_type := some imageStr } []).2.file_type
      = none ∧
    (∃ tc, (TelegramSender.send_message true true ("123456:ABC-DEF".data) ("999".data)
        ("hello".data)
        (TelegramSender.send_message true true ("123456:ABC-DEF".data) ("999".data)
          ("hi".data) { file_path := some ("pic.png".data), file_type := some imageStr } []).2
        []).1 = SendOutcome.sent (ApiCall.sendText tc)) := by
  have h := attachment_cleared_after_success ("123456:ABC-DEF".data) ("999".data) ("hi".data)
    { file_path := some ("pic.png".data), file_type := some imageStr } []
    (by decide) (by decide) (by decide)
  exact ⟨h.1, h.2.1, h.2.2.1, h.2.2.2 ("hello".data) [] (by decide)⟩

/-- C9: from the six UI entry rows a valid send carries at most six buttons;
the dispatched list is a sublist of the stripped rows, so its order is the
on-screen position order; and the attempted call's markup is exactly that
list (none when it is empty), end to end through the wrapper's re-filter. -/
theorem buttons_order_preserved (sendOk : Bool) (token chatid msg : Str) (st : FileSlot)
    (rows : List (Str × Str))
    (hrows : rows.length = 6)
    (htok : TelegramSender.is_token_valid (pyStrip token) = true)
    (hchat : pyTruthy (pyStrip chatid) = true)
    (hpay : (pyTruthy (pyStrip msg) || pyTruthyOptStr st.file_path) = true) :
    (TelegramSender.get_buttons rows).length ≤ 6 ∧
    List.Sublist (TelegramSender.get_buttons rows) (rows.map stripRow) ∧
    ∃ c, attemptedCall
          (TelegramSender.send_message true sendOk token chatid msg st rows).1 = some c ∧
      markupOf c = (if (TelegramSender.get_buttons rows).isEmpty then none
                    else some (TelegramSender.get_buttons rows)) := by
  have hsub : List.Sublist (TelegramSender.get_buttons rows) (rows.map stripRow) := by
    rw [get_buttons_eq_filter]
    exact List.filter_sublist _
  refine ⟨?_, hsub, ?_⟩
  · have hle := hsub.length_le
    rw [List.length_map, hrows] at hle
    exact hle
  · rw [send_message_shape sendOk token chatid msg st rows htok hchat hpay]
    refine ⟨dispatchCall (pyStrip chatid) (pyStrip msg) st (TelegramSender.get_buttons rows),
      ?_, ?_⟩
    · cases sendOk <;> rfl
    · unfold dispatchCall
      by_cases hfp : pyTruthyOptStr st.file_path = true
      · rw [if_pos hfp]
        by_cases himg : st.file_type = some imageStr
        · rw [if_pos himg]
          show (TelegramHelper.send_photo _ _ _ _).reply_markup = _
          rw [send_photo_markup, filter_get_buttons]
        · rw [if_neg himg]
          by_cases hvid : st.file_type = some videoStr
          · rw [if_pos hvid]
            show (TelegramHelper.send_video _ _ _ _).reply_markup = _
            rw [send_video_markup, filter_get_buttons]
          · rw [if_neg hvid]
            show (TelegramHelper.send_document _ _ _ _).reply_markup = _
            rw [send_document_markup, filter_get_buttons]
      · rw [if_neg hfp]
        show (TelegramHelper.send_message _ _ _).reply_markup = _
        rw [send_message_markup, filter_get_buttons]

/-- C9 witness: six concrete rows, two of them partial and one empty, yield
at most six buttons for the concrete valid request. -/
theorem buttons_order_preserved_witness :
    (TelegramSender.get_buttons [(("Site".data), ("http://x.com".data)),
        (("".data), ("".data)), (("A".data), ("u1".data)), (("".data), ("u2".data)),
        (("B".data), ("".data)), (("C".data), ("u3".data))]).length ≤ 6 :=
  (buttons_order_preserved true ("123456:ABC-DEF".data) ("999".data) ("hello".data)
    TelegramSender.initSlot
    [(("Site".data), ("http://x.com".data)), (("".data), ("".data)),
      (("A".data), ("u1".data)), (("".data), ("u2".data)), (("B".data), ("".data)),
      (("C".data), ("u3".data))]
    (by decide) (by decide) (by decide) (by decide)).1
